import Mathlib

/-!
Verification of the failure-classification and batch-reporting subsystem of
the Lighthouse coverage plugin (`plugins/lighthouse/exceptions.py`).

The embedding is shallow: each exception class becomes a value of the
`CoverageException` structure tagged with its `ErrorKind`; the class-level
`name` and `description` attributes become functions of the kind; the
`warn_errors` reporter is modelled as a function threading an explicit
`World` (log sink contents and the list of interactive warnings shown),
returning `Except (String × World) World` — an `error` result models an
uncaught Python exception, carrying the message and the world as it stood
when the exception was raised (side effects performed before the raise
persist).  The `disassembler.warning` collaborator is injected as a
`Notifier` so that both the real recording primitive and a failing
(raising) primitive can be studied, as the spec's failure-semantics
sentence requires.
-/

/-- A coverage-file object, as far as this subsystem reads it: the
reporter and the exception constructors only ever access its `filepath`
attribute. -/
structure Coverage where
  filepath : String
deriving Repr, DecidableEq

/-- The four concrete subclasses of `CoverageException` in
`exceptions.py`, as a closed enumeration of failure kinds. -/
inductive ErrorKind where
  | parseFailure
  | missingCoverage
  | mappingAbsent
  | mappingSuspicious
deriving Repr, DecidableEq

/-- The class attribute `name` of each concrete exception class. -/
def ErrorKind.name : ErrorKind → String
  | .parseFailure => "PARSE_FAILURE"
  | .missingCoverage => "NO_COVERAGE_ERROR"
  | .mappingAbsent => "NO_COVERAGE_MAPPED"
  | .mappingSuspicious => "BAD_COVERAGE_MAPPING"

/-- The class attribute `description` of each concrete exception class,
transcribed verbatim (Python adjacent-literal concatenation rendered as
`++`). -/
def ErrorKind.description : ErrorKind → String
  | .parseFailure =>
      "Failed to parse one or more of the selected coverage files!\n\n" ++
      " Possible reasons:\n" ++
      " - You selected a file that was *not* a coverage file.\n" ++
      " - The selected coverage file is malformed or unreadable.\n" ++
      " - A suitable parser for the coverage file is not installed.\n\n" ++
      "Please see the disassembler console for more info..."
  | .missingCoverage =>
      "No usable coverage data was extracted from one of the selected files.\n\n" ++
      " Possible reasons:\n" ++
      " - You selected a coverage file for the wrong binary.\n" ++
      " - The name of the executable file used to generate this database\n" ++
      "    is different than the one you collected coverage against.\n" ++
      " - Your DBI failed to collect any coverage for this binary.\n\n" ++
      "Please see the disassembler console for more info..."
  | .mappingAbsent =>
      "One or more of the loaded coverage files has no visibly mapped data.\n\n" ++
      " Possible reasons:\n" ++
      " - The loaded coverage data does not fall within defined functions.\n" ++
      " - You loaded an absolute address trace with a different imagebase.\n" ++
      " - The coverage data might be corrupt or malformed.\n\n" ++
      "Please see the disassembler console for more info..."
  | .mappingSuspicious =>
      "One or more of the loaded coverage files appears to be badly mapped.\n\n" ++
      " Possible reasons:\n" ++
      " - You selected the wrong binary/module to load coverage from.\n" ++
      " - Your coverage file/data is for a different version of the\n" ++
      "   binary that does not match what the disassembler has open.\n" ++
      " - You recorded self-modifying code or something with very\n" ++
      "    abnormal control flow (obfuscated code, malware, packers).\n" ++
      " - The coverage data might be corrupt or malformed.\n\n" ++
      "This means that any coverage displayed by Lighthouse is PROBABLY\n" ++
      "WRONG and is not be trusted because the coverage data does not\n" ++
      "appear to match the disassembled binary."

/-- The kind-specific payload held by an exception instance: nothing
(`CoverageMissingError`), the list of per-parser tracebacks
(`CoverageParsingError`), or the reference to the coverage object
(`CoverageMappingAbsent` / `CoverageMappingSuspicious`). -/
inductive Payload where
  | noPayload
  | tracebacks (tbs : List String)
  | coverageRef (cov : Coverage)
deriving Repr, DecidableEq

/-- One instance of the base class `CoverageException`: its concrete class
(`kind`), the `message` passed to `__init__`, the stored `filepath`, and
the kind-specific payload attribute. -/
structure CoverageException where
  kind : ErrorKind
  message : String
  filepath : String
  payload : Payload
deriving Repr, DecidableEq

/-- The `verbose` property of `CoverageException`:
`"Error: %s\n\n%s" % (self.name, self.description)`, where `name` and
`description` are class attributes, hence functions of the kind. -/
def CoverageException.verbose (e : CoverageException) : String :=
  "Error: " ++ e.kind.name ++ "\n\n" ++ e.kind.description

/-- `CoverageException.__str__`:
`self.message + " '%s'" % self.filepath`. -/
def CoverageException.str (e : CoverageException) : String :=
  e.message ++ " '" ++ e.filepath ++ "'"

/-- `CoverageParsingError.__init__(filepath, tracebacks)`: fixed message
"Failed to parse coverage file", the filepath as given. -/
def CoverageParsingError (filepath : String) (tracebacks : List String) :
    CoverageException :=
  { kind := .parseFailure
    message := "Failed to parse coverage file"
    filepath := filepath
    payload := .tracebacks tracebacks }

/-- `CoverageMissingError.__init__(filepath)`: fixed message
"No coverage extracted from file". -/
def CoverageMissingError (filepath : String) : CoverageException :=
  { kind := .missingCoverage
    message := "No coverage extracted from file"
    filepath := filepath
    payload := .noPayload }

/-- `CoverageMappingAbsent.__init__(coverage)`: the filepath is derived
from the coverage object (`coverage.filepath`), never passed directly. -/
def CoverageMappingAbsent (coverage : Coverage) : CoverageException :=
  { kind := .mappingAbsent
    message := "No coverage data could be mapped"
    filepath := coverage.filepath
    payload := .coverageRef coverage }

/-- `CoverageMappingSuspicious.__init__(coverage)`: the filepath is
derived from the coverage object. -/
def CoverageMappingSuspicious (coverage : Coverage) : CoverageException :=
  { kind := .mappingSuspicious
    message := "Coverage data appears badly mapped"
    filepath := coverage.filepath
    payload := .coverageRef coverage }

/-- Python call semantics for `CoverageMappingAbsent(coverage)`: the one
positional argument is required, so a call that omits it raises
`TypeError` before any attribute is set; a call that supplies it runs the
constructor. -/
def CoverageMappingAbsent.call : Option Coverage → Except String CoverageException
  | Option.none =>
      Except.error "TypeError: __init__() missing 1 required positional argument: coverage"
  | Option.some coverage => Except.ok (CoverageMappingAbsent coverage)

/-- Python call semantics for `CoverageMappingSuspicious(coverage)`: the
one positional argument is required. -/
def CoverageMappingSuspicious.call : Option Coverage → Except String CoverageException
  | Option.none =>
      Except.error "TypeError: __init__() missing 1 required positional argument: coverage"
  | Option.some coverage => Except.ok (CoverageMappingSuspicious coverage)

/-- The observable side-effect state of a `warn_errors` run: the lines
written to the log sink (`lmsg`) and the texts handed to the interactive
warning primitive, each in emission order. -/
structure World where
  log : List String
  warnings : List String
deriving Repr, DecidableEq

/-- The log sink `lmsg`: appends one line to the log. -/
def lmsg (s : String) (w : World) : World :=
  { w with log := w.log ++ [s] }

/-- The injected user-notification collaborator (`disassembler.warning`):
given the text to display and the current world, it either returns the
new world or raises (error message plus the world at the raise). -/
def Notifier : Type :=
  String → World → Except (String × World) World

/-- The normally functioning `disassembler.warning`: records the shown
text and returns. -/
def disassemblerWarning : Notifier := fun v w =>
  Except.ok { w with warnings := w.warnings ++ [v] }

/-- A `disassembler.warning` that raises (headless mode, broken UI): the
exception carries `msg` and leaves the world as it was. -/
def failingWarning (msg : String) : Notifier := fun _ w =>
  Except.error (msg, w)

/-- The separator written by `lmsg("-"*50)`: fifty dashes. -/
def dashSep : String :=
  "--------------------------------------------------"

/-- The body of `warn_errors`' for-loop over `iteritems(errors)`, plus the
closing separator once the items are exhausted.  `error` is the Python
local of the inner `for error in error_list` loop: `none` while it has
never been bound (reading it then raises `UnboundLocalError`), and it
keeps its last binding across outer iterations.  The inner loop both logs
each instance's filepath and rebinds `error`, exactly as the single
Python loop does. -/
def warnLoop (notify : Notifier) (ignore : List ErrorKind)
    (items : List (ErrorKind × List CoverageException))
    (error : Option CoverageException) (w : World) :
    Except (String × World) World :=
  match items with
  | [] => Except.ok (lmsg dashSep w)
  | (errorType, errorList) :: rest =>
      let w1 := lmsg ("Files reporting " ++ errorType.name ++ ":") (lmsg dashSep w)
      let p := errorList.foldl
        (fun (acc : Option CoverageException × World) e =>
          (some e, lmsg (" - " ++ e.filepath) acc.2)) (error, w1)
      if errorType ∈ ignore then
        warnLoop notify ignore rest p.1 p.2
      else
        match p.1 with
        | none =>
            Except.error
              ("UnboundLocalError: local variable referenced before assignment", p.2)
        | some e =>
            match notify (CoverageException.verbose e) p.2 with
            | Except.error err => Except.error err
            | Except.ok w2 => warnLoop notify ignore rest (some e) w2

/-- `warn_errors(errors, ignore)`: returns at once on an empty batch
(before any logging), otherwise runs the reporting loop with the `error`
local still unbound.  The batch is modelled as an association list in the
dict's iteration order. -/
def warn_errors (notify : Notifier)
    (errors : List (ErrorKind × List CoverageException))
    (ignore : List ErrorKind) (w : World) :
    Except (String × World) World :=
  if errors = [] then Except.ok w
  else warnLoop notify ignore errors none w

/-! ### Characterization of a successful `warn_errors` run -/

/-- The verbose text determined by a kind alone (what `verbose` yields on
any instance of that kind). -/
def kindVerbose (k : ErrorKind) : String :=
  "Error: " ++ k.name ++ "\n\n" ++ k.description

/-- The log lines one kind's group contributes: separator, header, one
line per instance in order. -/
def kindLog (k : ErrorKind) (l : List CoverageException) : List String :=
  dashSep :: ("Files reporting " ++ k.name ++ ":") ::
    l.map (fun e => " - " ++ e.filepath)

/-- All log lines of a non-empty-batch run: each kind's group in batch
order, then the closing separator. -/
def logDelta (items : List (ErrorKind × List CoverageException)) : List String :=
  (items.flatMap fun p => kindLog p.1 p.2) ++ [dashSep]

/-- The warning texts shown during a run on a well-formed batch: for each
non-ignored kind, the verbose text of the last instance of its list. -/
def warnDelta (ignore : List ErrorKind)
    (items : List (ErrorKind × List CoverageException)) : List String :=
  items.filterMap fun p =>
    if p.1 ∈ ignore then none
    else (p.2.getLast?).map CoverageException.verbose

theorem foldl_inner (l : List CoverageException)
    (c : Option CoverageException) (w : World) :
    l.foldl (fun (acc : Option CoverageException × World) e =>
        (some e, lmsg (" - " ++ e.filepath) acc.2)) (c, w) =
      (l.foldl (fun _ e => some e) c,
       { w with log := w.log ++ l.map (fun e => " - " ++ e.filepath) }) := by
  induction l generalizing c w with
  | nil => simp
  | cons a t ih =>
      simp only [List.foldl_cons, List.map_cons]
      rw [ih]
      simp [lmsg]

theorem foldl_some_eq_getLast (l : List CoverageException) (hl : l ≠ [])
    (c : Option CoverageException) :
    l.foldl (fun _ e => some e) c = some (l.getLast hl) := by
  induction l generalizing c with
  | nil => exact absurd rfl hl
  | cons a t ih =>
      cases t with
      | nil => simp [List.getLast]
      | cons b t2 =>
          rw [List.foldl_cons, ih (List.cons_ne_nil b t2)]
          simp [List.getLast_cons]

theorem logDelta_cons (p : ErrorKind × List CoverageException)
    (rest : List (ErrorKind × List CoverageException)) :
    logDelta (p :: rest) = kindLog p.1 p.2 ++ logDelta rest := by
  simp [logDelta, List.flatMap_cons, List.append_assoc]

theorem warnLoop_ok (ignore : List ErrorKind)
    (items : List (ErrorKind × List CoverageException))
    (hwf : ∀ p ∈ items, p.2 ≠ [])
    (c : Option CoverageException) (w : World) :
    warnLoop disassemblerWarning ignore items c w =
      Except.ok { log := w.log ++ logDelta items,
                  warnings := w.warnings ++ warnDelta ignore items } := by
  induction items generalizing c w with
  | nil => simp [warnLoop, logDelta, warnDelta, lmsg]
  | cons p rest ih =>
      obtain ⟨k, l⟩ := p
      have hl : l ≠ [] := hwf (k, l) (by simp)
      have hrest : ∀ q ∈ rest, q.2 ≠ [] := fun q hq => hwf q (by simp [hq])
      simp only [warnLoop]
      rw [foldl_inner, foldl_some_eq_getLast l hl]
      by_cases hk : k ∈ ignore
      · rw [if_pos hk, ih hrest]
        simp [logDelta_cons, warnDelta, kindLog, lmsg, hk,
          List.getLast?_eq_getLast l hl, List.append_assoc]
      · rw [if_neg hk]
        simp only [disassemblerWarning]
        rw [ih hrest]
        simp [logDelta_cons, warnDelta, kindLog, lmsg, hk,
          List.getLast?_eq_getLast l hl, List.append_assoc]

theorem warn_errors_ok (errors : List (ErrorKind × List CoverageException))
    (ignore : List ErrorKind) (w : World)
    (hne : errors ≠ []) (hwf : ∀ p ∈ errors, p.2 ≠ []) :
    warn_errors disassemblerWarning errors ignore w =
      Except.ok { log := w.log ++ logDelta errors,
                  warnings := w.warnings ++ warnDelta ignore errors } := by
  rw [warn_errors, if_neg hne]
  exact warnLoop_ok ignore errors hwf none w

theorem kindVerbose_injective : Function.Injective kindVerbose := by
  intro k1 k2 h
  cases k1 <;> cases k2 <;> first | rfl | exact absurd h (by decide)

theorem item_ne_dashSep (fp : String) : (" - " ++ fp) ≠ dashSep := by
  intro h
  have h2 : (" - " ++ fp).data.head? = dashSep.data.head? :=
    congrArg (fun s => s.data.head?) h
  rw [String.data_append] at h2
  have e1 : (" - ").data = ' ' :: '-' :: ' ' :: [] := rfl
  have e2 : dashSep.data.head? = some '-' := rfl
  rw [e1, e2] at h2
  simp at h2

theorem header_ne_dashSep (k : ErrorKind) :
    ("Files reporting " ++ k.name ++ ":") ≠ dashSep := by
  cases k <;> decide

theorem count_dashSep_kindLog (k : ErrorKind) (l : List CoverageException) :
    (kindLog k l).count dashSep = 1 := by
  have h0 : (l.map (fun e => " - " ++ e.filepath)).count dashSep = 0 := by
    rw [List.count_eq_zero]
    intro hmem
    obtain ⟨e, _, he⟩ := List.mem_map.mp hmem
    exact item_ne_dashSep e.filepath he
  simp [kindLog, List.count_cons, h0, header_ne_dashSep k]

theorem count_dashSep_logDelta (items : List (ErrorKind × List CoverageException)) :
    (logDelta items).count dashSep = items.length + 1 := by
  induction items with
  | nil => simp [logDelta]
  | cons p rest ih =>
      rw [logDelta_cons, List.count_append, count_dashSep_kindLog, ih]
      simp [List.length_cons]
      omega

theorem count_warnDelta (ignore : List ErrorKind)
    (items : List (ErrorKind × List CoverageException))
    (hwf : ∀ p ∈ items, p.2 ≠ [])
    (hc : ∀ p ∈ items, ∀ e ∈ p.2, e.kind = p.1)
    (k : ErrorKind) :
    (warnDelta ignore items).count (kindVerbose k) =
      if k ∈ ignore then 0 else (items.map Prod.fst).count k := by
  induction items with
  | nil => simp [warnDelta]
  | cons p rest ih =>
      obtain ⟨k2, l⟩ := p
      have hl : l ≠ [] := hwf (k2, l) (by simp)
      have hlast : (l.getLast hl).kind = k2 :=
        hc (k2, l) (by simp) _ (List.getLast_mem hl)
      have hver : (l.getLast hl).verbose = kindVerbose k2 := by
        simp [CoverageException.verbose, kindVerbose, hlast]
      have hrest := ih (fun q hq => hwf q (by simp [hq]))
        (fun q hq => hc q (by simp [hq]))
      by_cases hk2 : k2 ∈ ignore
      · rw [show warnDelta ignore ((k2, l) :: rest) = warnDelta ignore rest by
          simp [warnDelta, List.filterMap_cons, hk2]]
        rw [hrest]
        by_cases hk : k ∈ ignore
        · simp [hk]
        · have hne : k2 ≠ k := fun h => hk (h ▸ hk2)
          simp [hk, List.count_cons, hne]
      · rw [show warnDelta ignore ((k2, l) :: rest) =
              kindVerbose k2 :: warnDelta ignore rest by
          simp [warnDelta, List.filterMap_cons, hk2,
            List.getLast?_eq_getLast l hl, hver]]
        rw [List.count_cons, hrest]
        by_cases hk : k ∈ ignore
        · have hne : k2 ≠ k := fun h => hk2 (h ▸ hk)
          have hvne : kindVerbose k2 ≠ kindVerbose k :=
            fun h => hne (kindVerbose_injective h)
          simp [hk, hne, hvne]
        · simp only [hk, if_false, List.map_cons, List.count_cons]
          by_cases hkk : k2 = k
          · subst hkk; simp
          · have hvne : kindVerbose k2 ≠ kindVerbose k :=
              fun h => hkk (kindVerbose_injective h)
            simp [hkk, hvne]

theorem kindLog_infix_logDelta (p : ErrorKind × List CoverageException)
    (items : List (ErrorKind × List CoverageException)) (h : p ∈ items) :
    kindLog p.1 p.2 <:+: logDelta items := by
  obtain ⟨s, t, rfl⟩ := List.append_of_mem h
  refine ⟨s.flatMap (fun q => kindLog q.1 q.2),
    (t.flatMap fun q => kindLog q.1 q.2) ++ [dashSep], ?_⟩
  simp [logDelta, List.flatMap_append, List.flatMap_cons, List.append_assoc]

theorem warnLoop_failing (msg : String) (ignore : List ErrorKind)
    (items : List (ErrorKind × List CoverageException))
    (hwf : ∀ p ∈ items, p.2 ≠ [])
    (hex : ∃ p ∈ items, p.1 ∉ ignore)
    (c : Option CoverageException) (w : World) :
    ∃ w2, warnLoop (failingWarning msg) ignore items c w =
      Except.error (msg, w2) := by
  induction items generalizing c w with
  | nil => simp at hex
  | cons p rest ih =>
      obtain ⟨k, l⟩ := p
      have hl : l ≠ [] := hwf (k, l) (by simp)
      simp only [warnLoop]
      rw [foldl_inner, foldl_some_eq_getLast l hl]
      by_cases hk : k ∈ ignore
      · rw [if_pos hk]
        apply ih (fun q hq => hwf q (by simp [hq]))
        obtain ⟨q, hq, hqk⟩ := hex
        rcases List.mem_cons.mp hq with hq1 | hq2
        · subst hq1
          exact absurd hk hqk
        · exact ⟨q, hq2, hqk⟩
      · rw [if_neg hk]
        exact ⟨_, rfl⟩

/-! ### The claims -/

/-- C1: for every batch whose per-kind instance lists are non-empty, whose
instances carry their key's kind, and whose keys are distinct (the dict
invariants of a Batch), and for every kind present in the batch that is
not in the ignore set, `warn_errors` succeeds and invokes the interactive
notification exactly once for that kind, with content the verbose message
of the last instance in that kind's ordered list. -/
theorem warn_errors_notifies_last_verbose_once
    (errors : List (ErrorKind × List CoverageException))
    (ignore : List ErrorKind) (k : ErrorKind) (l : List CoverageException)
    (hl : l ≠ [])
    (hmem : (k, l) ∈ errors)
    (hwf : ∀ p ∈ errors, p.2 ≠ [])
    (hc : ∀ p ∈ errors, ∀ e ∈ p.2, e.kind = p.1)
    (hnd : (errors.map Prod.fst).Nodup)
    (hk : k ∉ ignore) :
    ∃ w : World,
      warn_errors disassemblerWarning errors ignore ⟨[], []⟩ = Except.ok w ∧
      w.warnings.count (CoverageException.verbose (l.getLast hl)) = 1 := by
  have hne : errors ≠ [] := by rintro rfl; simp at hmem
  refine ⟨_, warn_errors_ok errors ignore ⟨[], []⟩ hne hwf, ?_⟩
  have hver : (l.getLast hl).verbose = kindVerbose k := by
    simp [CoverageException.verbose, kindVerbose,
      hc (k, l) hmem _ (List.getLast_mem hl)]
  simp only [hver, List.nil_append]
  rw [count_warnDelta ignore errors hwf hc k, if_neg hk]
  exact List.count_eq_one_of_mem hnd (List.mem_map.mpr ⟨(k, l), hmem, rfl⟩)

/-- Witness for C1 at the spec's concrete scenario: ParseFailure ignored,
MappingSuspicious with two instances notified once, with the verbose text
of the last. -/
theorem warn_errors_notifies_last_verbose_once_witness :
    ∃ w : World,
      warn_errors disassemblerWarning
        [(ErrorKind.parseFailure, [CoverageParsingError "a.cov" []]),
         (ErrorKind.mappingSuspicious,
           [CoverageMappingSuspicious ⟨"b.cov"⟩, CoverageMappingSuspicious ⟨"c.cov"⟩])]
        [ErrorKind.parseFailure] ⟨[], []⟩ = Except.ok w ∧
      w.warnings.count (CoverageException.verbose
        (([CoverageMappingSuspicious ⟨"b.cov"⟩,
           CoverageMappingSuspicious ⟨"c.cov"⟩]).getLast (by decide))) = 1 :=
  warn_errors_notifies_last_verbose_once
    [(ErrorKind.parseFailure, [CoverageParsingError "a.cov" []]),
     (ErrorKind.mappingSuspicious,
       [CoverageMappingSuspicious ⟨"b.cov"⟩, CoverageMappingSuspicious ⟨"c.cov"⟩])]
    [ErrorKind.parseFailure] ErrorKind.mappingSuspicious
    [CoverageMappingSuspicious ⟨"b.cov"⟩, CoverageMappingSuspicious ⟨"c.cov"⟩]
    (by decide) (by decide) (by decide) (by decide) (by decide) (by decide)

/-- C2 counterexample: with a notification primitive that fails (models
headless mode), `warn_errors` does not return normally — the failure is
not swallowed; it propagates after the log lines were written. -/
theorem warn_errors_raises_when_notifier_fails :
    warn_errors (failingWarning "RuntimeError: disassembler warning unavailable")
      [(ErrorKind.parseFailure, [CoverageParsingError "a.cov" []])] [] ⟨[], []⟩ =
    Except.error ("RuntimeError: disassembler warning unavailable",
      { log := [dashSep, "Files reporting PARSE_FAILURE:", " - a.cov"],
        warnings := [] }) := by
  rfl

/-- C2 amended: `warn_errors` has no exception handling — whenever the
batch holds a non-ignored kind (per-kind lists non-empty), a failure of
the notification primitive propagates to the caller instead of being
swallowed; the log lines emitted before the failure persist in the
carried world. -/
theorem warn_errors_propagates_notifier_failure
    (msg : String) (errors : List (ErrorKind × List CoverageException))
    (ignore : List ErrorKind) (w : World)
    (hwf : ∀ p ∈ errors, p.2 ≠ [])
    (hex : ∃ p ∈ errors, p.1 ∉ ignore) :
    ∃ w2, warn_errors (failingWarning msg) errors ignore w =
      Except.error (msg, w2) := by
  have hne : errors ≠ [] := by rintro rfl; simp at hex
  rw [warn_errors, if_neg hne]
  exact warnLoop_failing msg ignore errors hwf hex none w

/-- Witness for the amended C2. -/
theorem warn_errors_propagates_notifier_failure_witness :
    ∃ w2, warn_errors (failingWarning "RuntimeError: headless")
      [(ErrorKind.missingCoverage, [CoverageMissingError "d.cov"])] [] ⟨[], []⟩ =
      Except.error ("RuntimeError: headless", w2) :=
  warn_errors_propagates_notifier_failure "RuntimeError: headless"
    [(ErrorKind.missingCoverage, [CoverageMissingError "d.cov"])] [] ⟨[], []⟩
    (by decide)
    ⟨(ErrorKind.missingCoverage, [CoverageMissingError "d.cov"]), by decide, by decide⟩

/-- C3: for every well-formed batch and every kind present in it that is
in the ignore set, `warn_errors` succeeds, invokes zero interactive
notifications for that kind, and still emits the kind's header line
followed by one log line per instance (its file path), contiguously and
in the original order. -/
theorem warn_errors_ignored_kind_logged_not_notified
    (errors : List (ErrorKind × List CoverageException))
    (ignore : List ErrorKind) (k : ErrorKind) (l : List CoverageException)
    (hmem : (k, l) ∈ errors)
    (hwf : ∀ p ∈ errors, p.2 ≠ [])
    (hc : ∀ p ∈ errors, ∀ e ∈ p.2, e.kind = p.1)
    (hk : k ∈ ignore) :
    ∃ w : World,
      warn_errors disassemblerWarning errors ignore ⟨[], []⟩ = Except.ok w ∧
      w.warnings.count (kindVerbose k) = 0 ∧
      (("Files reporting " ++ k.name ++ ":") ::
        l.map (fun e => " - " ++ e.filepath)) <:+: w.log := by
  have hne : errors ≠ [] := by rintro rfl; simp at hmem
  refine ⟨_, warn_errors_ok errors ignore ⟨[], []⟩ hne hwf, ?_, ?_⟩
  · simp only [List.nil_append]
    rw [count_warnDelta ignore errors hwf hc k, if_pos hk]
  · have h1 := kindLog_infix_logDelta (k, l) errors hmem
    have h2 : (("Files reporting " ++ k.name ++ ":") ::
        l.map (fun e => " - " ++ e.filepath)) <:+: kindLog k l :=
      ⟨[dashSep], [], by simp [kindLog]⟩
    simpa using h2.trans h1

/-- Witness for C3 at the spec's concrete scenario (the ignored
ParseFailure kind). -/
theorem warn_errors_ignored_kind_logged_not_notified_witness :
    ∃ w : World,
      warn_errors disassemblerWarning
        [(ErrorKind.parseFailure, [CoverageParsingError "a.cov" []]),
         (ErrorKind.mappingSuspicious,
           [CoverageMappingSuspicious ⟨"b.cov"⟩, CoverageMappingSuspicious ⟨"c.cov"⟩])]
        [ErrorKind.parseFailure] ⟨[], []⟩ = Except.ok w ∧
      w.warnings.count (kindVerbose ErrorKind.parseFailure) = 0 ∧
      (("Files reporting " ++ ErrorKind.parseFailure.name ++ ":") ::
        ([CoverageParsingError "a.cov" []]).map (fun e => " - " ++ e.filepath)) <:+: w.log :=
  warn_errors_ignored_kind_logged_not_notified
    [(ErrorKind.parseFailure, [CoverageParsingError "a.cov" []]),
     (ErrorKind.mappingSuspicious,
       [CoverageMappingSuspicious ⟨"b.cov"⟩, CoverageMappingSuspicious ⟨"c.cov"⟩])]
    [ErrorKind.parseFailure] ErrorKind.parseFailure
    [CoverageParsingError "a.cov" []]
    (by decide) (by decide) (by decide) (by decide)

/-- C4: the short-form rendering (`__str__`) of any failure instance with
message `m` and file path `p` is `m` followed by a space and `p` wrapped
in single quotes. -/
theorem coverage_exception_str_short_form
    (k : ErrorKind) (m fp : String) (pl : Payload) :
    CoverageException.str { kind := k, message := m, filepath := fp, payload := pl } =
      m ++ " '" ++ fp ++ "'" := rfl

/-- C5: on the empty batch, `warn_errors` returns at once with the world
untouched — no log line (separators included) and no notification —
whatever the ignore set and the notification primitive. -/
theorem warn_errors_empty_batch_noop
    (notify : Notifier) (ignore : List ErrorKind) (w : World) :
    warn_errors notify [] ignore w = Except.ok w := rfl

/-- C6: on every non-empty well-formed batch (kinds distinct, each with
at least one instance), `warn_errors` succeeds and the log holds exactly
`errors.length + 1` separator lines: one before each kind's group and one
closing line — i.e. one separator pair per distinct kind present. -/
theorem warn_errors_separator_count
    (errors : List (ErrorKind × List CoverageException))
    (ignore : List ErrorKind)
    (hne : errors ≠ [])
    (hwf : ∀ p ∈ errors, p.2 ≠ [])
    (hnd : (errors.map Prod.fst).Nodup) :
    ∃ w : World,
      warn_errors disassemblerWarning errors ignore ⟨[], []⟩ = Except.ok w ∧
      w.log.count dashSep = errors.length + 1 := by
  refine ⟨_, warn_errors_ok errors ignore ⟨[], []⟩ hne hwf, ?_⟩
  simp only [List.nil_append]
  exact count_dashSep_logDelta errors

/-- Witness for C6. -/
theorem warn_errors_separator_count_witness :
    ∃ w : World,
      warn_errors disassemblerWarning
        [(ErrorKind.parseFailure, [CoverageParsingError "a.cov" []]),
         (ErrorKind.mappingAbsent, [CoverageMappingAbsent ⟨"b.cov"⟩])]
        [] ⟨[], []⟩ = Except.ok w ∧
      w.log.count dashSep =
        ([(ErrorKind.parseFailure, [CoverageParsingError "a.cov" []]),
          (ErrorKind.mappingAbsent, [CoverageMappingAbsent ⟨"b.cov"⟩])]).length + 1 :=
  warn_errors_separator_count
    [(ErrorKind.parseFailure, [CoverageParsingError "a.cov" []]),
     (ErrorKind.mappingAbsent, [CoverageMappingAbsent ⟨"b.cov"⟩])]
    [] (by decide) (by decide) (by decide)

/-- C7: `warn_errors` retains no hidden state and mutates nothing: on a
well-formed batch its effect is to append a log delta and a notification
list that depend only on the batch and the ignore set, so two successive
calls on the same unmodified batch append identical log output and show
identical notifications (same count, same content) each time. -/
theorem warn_errors_idempotent_no_hidden_state
    (errors : List (ErrorKind × List CoverageException))
    (ignore : List ErrorKind) (w : World)
    (hwf : ∀ p ∈ errors, p.2 ≠ []) :
    ∃ d n : List String,
      warn_errors disassemblerWarning errors ignore ⟨[], []⟩ =
        Except.ok { log := d, warnings := n } ∧
      warn_errors disassemblerWarning errors ignore w =
        Except.ok { log := w.log ++ d, warnings := w.warnings ++ n } := by
  by_cases hne : errors = []
  · subst hne
    refine ⟨[], [], rfl, ?_⟩
    simp only [warn_errors, if_pos rfl]
    simp
  · refine ⟨logDelta errors, warnDelta ignore errors, ?_,
      warn_errors_ok errors ignore w hne hwf⟩
    simpa using warn_errors_ok errors ignore ⟨[], []⟩ hne hwf

/-- Witness for C7: the second run on a world already holding the first
run's output appends the same delta again. -/
theorem warn_errors_idempotent_no_hidden_state_witness :
    ∃ d n : List String,
      warn_errors disassemblerWarning
        [(ErrorKind.missingCoverage, [CoverageMissingError "d.cov"])] [] ⟨[], []⟩ =
        Except.ok { log := d, warnings := n } ∧
      warn_errors disassemblerWarning
        [(ErrorKind.missingCoverage, [CoverageMissingError "d.cov"])] []
        ⟨["prior line"], ["prior warning"]⟩ =
        Except.ok { log := ["prior line"] ++ d,
                    warnings := ["prior warning"] ++ n } :=
  warn_errors_idempotent_no_hidden_state
    [(ErrorKind.missingCoverage, [CoverageMissingError "d.cov"])] []
    ⟨["prior line"], ["prior warning"]⟩ (by decide)

/-- C8: calling the MappingAbsent / MappingSuspicious constructors
without the coverage argument is rejected at construction time (TypeError,
never an instance with a defaulted path); with it, the constructed
instance's file path equals the coverage object's `filepath`. -/
theorem mapping_constructors_require_coverage :
    (∀ e, CoverageMappingAbsent.call none ≠ Except.ok e) ∧
    (∀ e, CoverageMappingSuspicious.call none ≠ Except.ok e) ∧
    (∀ c : Coverage, ∃ e, CoverageMappingAbsent.call (some c) = Except.ok e ∧
      e.filepath = c.filepath) ∧
    (∀ c : Coverage, ∃ e, CoverageMappingSuspicious.call (some c) = Except.ok e ∧
      e.filepath = c.filepath) :=
  ⟨fun _ h => Except.noConfusion h, fun _ h => Except.noConfusion h,
   fun _ => ⟨_, rfl, rfl⟩, fun _ => ⟨_, rfl, rfl⟩⟩

/-- C9: on a batch whose first kind has an empty instance list and is not
ignored, `warn_errors` emits that kind's separator and header lines and
then raises `UnboundLocalError` at the notification step (the per-instance
loop variable was never bound), instead of skipping the kind. -/
theorem warn_errors_empty_list_unbound_local
    (k : ErrorKind) (rest : List (ErrorKind × List CoverageException))
    (ignore : List ErrorKind) (w : World) (hk : k ∉ ignore) :
    warn_errors disassemblerWarning ((k, []) :: rest) ignore w =
      Except.error ("UnboundLocalError: local variable referenced before assignment",
        { w with log := w.log ++ [dashSep, "Files reporting " ++ k.name ++ ":"] }) := by
  have hne : ((k, ([] : List CoverageException)) :: rest) ≠ [] := by simp
  rw [warn_errors, if_neg hne]
  simp only [warnLoop, List.foldl_nil, if_neg hk]
  simp [lmsg, List.append_assoc]

/-- Witness for C9. -/
theorem warn_errors_empty_list_unbound_local_witness :
    warn_errors disassemblerWarning [(ErrorKind.mappingAbsent, [])] [] ⟨[], []⟩ =
      Except.error ("UnboundLocalError: local variable referenced before assignment",
        { log := [dashSep, "Files reporting " ++ ErrorKind.mappingAbsent.name ++ ":"],
          warnings := [] }) := by
  have h := warn_errors_empty_list_unbound_local ErrorKind.mappingAbsent [] [] ⟨[], []⟩
    (by decide)
  simpa using h

/-- C10: the verbose message of every failure instance is exactly
"Error: " plus the kind's stable name, a blank line, and the kind's
fixed description; it reads neither the instance's message, file path nor
payload, so instances of one kind share identical verbose text. -/
theorem verbose_depends_only_on_kind :
    (∀ k : ErrorKind, ∀ m fp : String, ∀ pl : Payload,
      CoverageException.verbose { kind := k, message := m, filepath := fp, payload := pl } =
        "Error: " ++ k.name ++ "\n\n" ++ k.description) ∧
    (∀ e1 e2 : CoverageException, e1.kind = e2.kind → e1.verbose = e2.verbose) := by
  refine ⟨fun k m fp pl => rfl, fun e1 e2 h => ?_⟩
  simp [CoverageException.verbose, h]

/-- Witness for C10: two instances of the same kind with different file
paths, messages and payloads have the same verbose text. -/
theorem verbose_depends_only_on_kind_witness :
    (CoverageMappingAbsent ⟨"x.cov"⟩).verbose =
      (CoverageMappingAbsent ⟨"y.cov"⟩).verbose :=
  verbose_depends_only_on_kind.2 (CoverageMappingAbsent ⟨"x.cov"⟩)
    (CoverageMappingAbsent ⟨"y.cov"⟩) rfl
